import Mathlib

/-!
Verification development for the jetpack-webpage repository.

The repository drives one browser tab: `webPage.open(url)` runs a navigation
attempt through the `Tab` engine (phases init / start / loadStart / ready /
load / fullLoad, two timeout windows), a network-interception layer feeds
every outgoing request through the authorization policy and the cookie jar,
and every response's `Set-Cookie` headers are harvested back into the jar.

This file gives a shallow embedding of that code:

* `Cookie`, `Cookie.create`, `addCookie`, `setCookiesAssign` — the cookie
  jar owned by a page session (`webPage.addCookie` and the `cookies` setter
  in `utils.js`).
* `parseURL`, `domainMatch`, `Cookie.check`, `parseCookie` — cookie
  matching and `Set-Cookie` parsing.  The bodies of `Cookie`, `check` and
  `parseCookie` are not part of the sources at hand (only their tests and
  callers are); those definitions are modelled from the design document and
  pinned down by the repository's own test vectors.
* `base64Encode`, `setAuthHeaders` — the Basic-Auth policy, modelled from
  the design document (the function body is not in the sources at hand).
* `TabState`, `run`, `loadRun` — an event-loop model of `Tab.load` from the
  tab engine: one pending queue of host progress signals and timer firings,
  processed in time order, replicating the handler bodies
  (`onLoadStarted`, `onTransferStarted`, `onContentLoaded`,
  `onLoadFinished`, `startWait`, `loadWait`, `fullLoad`, `_cleanUp`).
* `plOnStateChange` — the `ProgressListener.onStateChange` state machine of
  the older tab-engine variant, with the real Gecko progress flag values.
* `PageState`, `webPage.closePage`, `webPage.openPage` — the session layer
  (`close`, `open`, the `transfer` state).
-/

namespace JetpackWebpage

/-! ## Cookie data model -/

/-- One cookie as stored in a page session's jar: the fields the repository
keeps (`name`, `value`, `domain`, `path`, `secure`, `httponly`, `expires`).
The expiry is kept as the raw attribute text: no claim here depends on date
arithmetic. -/
structure Cookie where
  name : String
  value : String
  domain : String
  path : String
  secure : Bool
  httponly : Bool
  expires : Option String
deriving Repr, DecidableEq

/-- The raw field set handed to the cookie constructor (`Cookie(options)` in
the code): every field optional before validation. -/
structure CookieFields where
  name : Option String := none
  value : Option String := none
  domain : Option String := none
  path : Option String := none
  secure : Option Bool := none
  httponly : Option Bool := none
  expires : Option String := none
deriving Repr, DecidableEq

/-- Modelled from the spec: the `Cookie(fields)` constructor itself is not
among the sources at hand (only its callers and tests are).  The design
document says construction fails with `InvalidCookie` when `name` or `value`
is missing and lists the defaults `path="/"`, `httponly=true`,
`secure=false`, no expiry.  The repository's own tests additionally pin down
that `domain` is required: both cookie test files assert that
`addCookie({name: "foo", value: "bar"})` (no domain) throws.  The model
follows the tests on that point, the spec on everything else. -/
def Cookie.create (f : CookieFields) : Except String Cookie :=
  match f.name, f.value, f.domain with
  | some n, some v, some d =>
    .ok { name := n, value := v, domain := d,
          path := f.path.getD "/",
          secure := f.secure.getD false,
          httponly := f.httponly.getD true,
          expires := f.expires }
  | _, _, _ => .error "InvalidCookie"

/-- `webPage.addCookie` (utils.js): drop every cookie of the same name from
the jar, then push the new one at the end. -/
def addCookie (jar : List Cookie) (c : Cookie) : List Cookie :=
  (jar.filter (fun v => v.name ≠ c.name)) ++ [c]

/-- Helper for the `cookies` setter: validate and add the field sets one by
one into an empty jar, stopping at the first invalid one. -/
def addAllCookies (acc : List Cookie) : List CookieFields → Except String (List Cookie)
  | [] => .ok acc
  | f :: rest =>
    match Cookie.create f with
    | .ok c => addAllCookies (addCookie acc c) rest
    | .error e => .error e

/-- The `cookies` property setter (utils.js): remember the old jar, clear,
add each value; if any add throws, restore the old jar and re-raise.
Returns the jar after the assignment together with whether an error was
raised. -/
def setCookiesAssign (old : List Cookie) (values : List CookieFields) :
    List Cookie × Bool :=
  match addAllCookies [] values with
  | .ok jar => (jar, false)
  | .error _ => (old, true)

/-! ## Character-list string helpers

The host platform's string operations are opaque to the proof kernel, so
the model performs all character-level work on the underlying character
lists, where every step evaluates. -/

/-- Is the first list a leading segment of the second? -/
def isPrefOf : List Char → List Char → Bool
  | [], _ => true
  | _ :: _, [] => false
  | a :: as, b :: bs => a == b && isPrefOf as bs

/-- JavaScript's `s.indexOf(p) === 0`: `s` starts with `p`. -/
def strStarts (s p : String) : Bool := isPrefOf p.data s.data

/-- `s` ends with `p`. -/
def strEnds (s p : String) : Bool := isPrefOf p.data.reverse s.data.reverse

/-- Drop the first character of a string (`substr(1)`). -/
def strDropHead (s : String) : String := String.mk (s.data.drop 1)

/-- Split a character list on a separator character (the model of
`split(";")` for Set-Cookie attribute lists). -/
def splitOnChar (sep : Char) : List Char → List (List Char)
  | [] => [[]]
  | c :: rest =>
    let r := splitOnChar sep rest
    if c = sep then [] :: r else (c :: r.headD []) :: r.tail

/-- Strip leading and trailing spaces (the model of `trim()` on header
attribute text). -/
def trimChars (s : List Char) : List Char :=
  ((s.dropWhile (fun ch => ch = ' ')).reverse.dropWhile
    (fun ch => ch = ' ')).reverse

/-- Lower-case every character (the model of `toLowerCase()`). -/
def lowerChars (s : List Char) : List Char := s.map Char.toLower

/-! ## URL parsing and cookie matching -/

/-- The pieces of a URL the cookie and auth layers look at. -/
structure URLParts where
  scheme : String
  host : String
  port : Option String
  path : String
deriving Repr, DecidableEq

/-- Split a character list at the first "://" into scheme and remainder. -/
def splitScheme : List Char → Option (List Char × List Char)
  | [] => none
  | ':' :: '/' :: '/' :: rest => some ([], rest)
  | c :: rest =>
    match splitScheme rest with
    | none => none
    | some (a, b) => some (c :: a, b)

/-- Modelled from the spec: the code uses the host SDK's URL object; this
small parser extracts the scheme, host, optional port and path that the
cookie model consults. -/
def parseURL (url : String) : Option URLParts :=
  match splitScheme url.data with
  | none => none
  | some (scheme, rest) =>
    let auth := rest.takeWhile (fun ch => ch ≠ '/')
    let path := rest.drop auth.length
    let host := auth.takeWhile (fun ch => ch ≠ ':')
    let port := if host.length = auth.length then none
                else some (String.mk (auth.drop (host.length + 1)))
    some { scheme := String.mk scheme, host := String.mk host, port := port,
           path := if path.isEmpty then "/" else String.mk path }

/-- Modelled from the spec: the leading-dot domain rule.  A domain starting
with a dot (".example.com") matches the bare host ("example.com") and every
subdomain of it; a bare domain matches only that exact host. -/
def domainMatch (domain host : String) : Bool :=
  if strStarts domain "." then
    host == strDropHead domain || strEnds host domain
  else
    host == domain

/-- Modelled from the spec: `Cookie.check(url)` (called `matches` in the
design document) is not among the sources at hand; per the document it holds
iff the url's host satisfies the domain rule, the url's path starts with the
cookie's path, and, when the cookie is secure, the url's scheme is https.
The repository's cookie tests (domain / path / perm) pin its behaviour. -/
def Cookie.check (c : Cookie) (url : String) : Bool :=
  match parseURL url with
  | none => false
  | some u =>
    domainMatch c.domain u.host &&
    strStarts u.path c.path &&
    (!c.secure || u.scheme == "https")

/-- Split a character list at its first "=": the attribute key and the raw
value (which may itself contain "=", as in "PREF=ID=68:FF=0:TM=1"). -/
def splitFirstEq (s : List Char) : Option (List Char × List Char) :=
  let key := s.takeWhile (fun ch => ch ≠ '=')
  if key.length = s.length then none
  else some (key, s.drop (key.length + 1))

/-- Does the attribute list of a Set-Cookie header value contain the given
flag attribute (case-insensitively)? -/
def hasFlagAttr (attrs : List (List Char)) (key : List Char) : Bool :=
  attrs.any (fun a => lowerChars (trimChars a) == key)

/-- Look up a valued attribute (case-insensitively) in the attribute list. -/
def findAttr (attrs : List (List Char)) (key : List Char) :
    Option (List Char) :=
  (attrs.filterMap (fun a =>
    match splitFirstEq (trimChars a) with
    | some (k, v) => if lowerChars (trimChars k) == key then some v else none
    | none => none)).head?

/-- Modelled from the spec: `parseCookie(headerValue, responseURL)` is not
among the sources at hand.  Per the design document it parses one
Set-Cookie header: the first `name=value` pair is mandatory; `path`,
`domain`, `expires`, `secure`, `HttpOnly` attributes are recognized
case-insensitively; the domain defaults to the response's host; and the
parsed cookie's `secure` flag is forced to false when the response's own
scheme was not https, regardless of the attribute's presence.  The parser
test in the repository pins its behaviour (including `httponly` defaulting
to false when the attribute is absent). -/
def parseCookie (header url : String) : Option Cookie :=
  match parseURL url with
  | none => none
  | some u =>
    match splitFirstEq (trimChars ((splitOnChar ';' header.data).headD [])) with
    | none => none
    | some (n, v) =>
      if n.isEmpty then none
      else
        some { name := String.mk n, value := String.mk v,
               domain := ((findAttr ((splitOnChar ';' header.data).drop 1)
                 "domain".data).map String.mk).getD u.host,
               path := ((findAttr ((splitOnChar ';' header.data).drop 1)
                 "path".data).map String.mk).getD "/",
               expires := (findAttr ((splitOnChar ';' header.data).drop 1)
                 "expires".data).map String.mk,
               httponly := hasFlagAttr ((splitOnChar ';' header.data).drop 1)
                 "httponly".data,
               secure := hasFlagAttr ((splitOnChar ';' header.data).drop 1)
                 "secure".data && u.scheme == "https" }

/-- Whether the attribute list of a Set-Cookie header value (everything
after the first ";") contains the `secure` flag attribute. -/
def hasSecureAttr (header : String) : Bool :=
  hasFlagAttr ((splitOnChar ';' header.data).drop 1) "secure".data

/-- Validate a whole list of cookie field sets, stopping at the first
invalid one (the list of cookies the `cookies` setter would add). -/
def createAll : List CookieFields → Except String (List Cookie)
  | [] => .ok []
  | f :: rest =>
    match Cookie.create f, createAll rest with
    | .ok c, .ok cs => .ok (c :: cs)
    | .error e, _ => .error e
    | .ok _, .error e => .error e

/-! ## Basic authentication -/

/-- The base64 alphabet. -/
def base64Chars : List Char :=
  "ABCDEFGHIJKLMNOPQRSTUVWXYZabcdefghijklmnopqrstuvwxyz0123456789+/".data

/-- One base64 output character for a 6-bit value. -/
def b64Char (n : Nat) : Char := base64Chars.getD n 'A'

/-- Standard base64 encoding of a byte list, with "=" padding. -/
def base64Encode : List Nat → List Char
  | [] => []
  | [a] =>
    [b64Char (a / 4), b64Char (a % 4 * 16), '=', '=']
  | [a, b] =>
    [b64Char (a / 4), b64Char (a % 4 * 16 + b / 16),
     b64Char (b % 16 * 4), '=']
  | a :: b :: c :: rest =>
    b64Char (a / 4) :: b64Char (a % 4 * 16 + b / 16) ::
      b64Char (b % 16 * 4 + c / 64) :: b64Char (c % 64) :: base64Encode rest

/-- The bytes of an ASCII string. -/
def strBytes (s : String) : List Nat := s.data.map Char.toNat

/-- The value of a Basic Authorization header for the given credentials:
"Basic " followed by the base64 encoding of the bytes of "user:pass". -/
def basicAuth (user pass : String) : String :=
  String.mk ("Basic ".data
    ++ base64Encode (strBytes user ++ [':'.toNat] ++ strBytes pass))

/-- The scheme + host + port origin triple used for authorization scoping. -/
structure Origin where
  scheme : String
  host : String
  port : Nat
deriving Repr, DecidableEq

/-- An outgoing request as the authorization policy sees it: its origin and
whether it carries a referring origin (the main-document request of a page
has none). -/
structure AuthRequest where
  url : Origin
  hasReferrer : Bool
deriving Repr, DecidableEq

/-- Modelled from the spec: `setAuthHeaders(request, baseURL, user, pass)`
is not among the sources at hand.  Per the design document: any pre-existing
Authorization header is cleared first (the function's result is the whole
resulting header, so clearing is implicit); without a complete
username/password pair nothing is attached; the main-document request (no
referring origin) always gets `Basic base64(user:pass)`; any other request
gets it only when its scheme, host and port all equal the base URL's. -/
def setAuthHeaders (req : AuthRequest) (base : Origin)
    (user pass : Option String) : Option String :=
  match user, pass with
  | some u, some p =>
    if !req.hasReferrer then some (basicAuth u p)
    else if req.url.scheme == base.scheme && req.url.host == base.host
            && req.url.port == base.port then some (basicAuth u p)
    else none
  | _, _ => none

/-! ## Tab navigation engine: the `load` event loop

The current `Tab` engine runs one navigation attempt per `load(url)` call.
`_load` registers the interception layer, stops the browser, arms the
start-timeout timer, registers the progress observer, emits `init` and
issues the navigation.  Host progress callbacks and timer callbacks then
arrive on the single-threaded event loop; the model below replays them from
a pending queue ordered by firing time (an item inserted later at an equal
time runs after one queued earlier, as on the JS event loop). -/

/-- The four logical host progress signals the engine consumes. -/
inductive HostSig
  | loadStarted
  | transferStarted
  | contentLoaded (status : Bool)
  | loadFinished (status : Bool)
deriving Repr, DecidableEq

/-- The events the tab engine emits during one navigation attempt. -/
inductive TabEvent
  | init
  | start
  | loadStart
  | ready
  | load
  | fullLoad
  | loadFail (reason : String)
deriving Repr, DecidableEq

/-- A pending event-loop item: a host progress signal, a `this._timeout`
phase timer (identified so that `clearTimeout` can cancel it; its payload is
the failure reason it emits), or the anonymous never-cancelled `fullLoad`
quiescence timer. -/
inductive QItem
  | host (s : HostSig)
  | timer (id : Nat) (reason : String)
  | timerFull
deriving Repr, DecidableEq

/-- The engine state during one navigation attempt: the identity of the
currently armed phase timer (`this._timeout`), a fresh-id counter, whether
the progress observer is still registered (`_cleanUp` unregisters it), and
the events emitted so far. -/
structure TabState where
  phaseTimer : Option Nat
  nextId : Nat
  progReg : Bool
  events : List TabEvent
deriving Repr, DecidableEq

/-- The three timing options of a tab (after validation with their default
values 5000 / 30000 / 500). -/
structure TabOptions where
  startTimeout : Nat
  loadTimeout : Nat
  loadWait : Nat
deriving Repr, DecidableEq

/-- `Tab._cleanUp`, run on every `fullLoad`, `loadFail` and `error` event:
clear the pending phase timeout and unregister the interception and
progress observers. -/
def cleanUp (st : TabState) : TabState :=
  { st with phaseTimer := none, progReg := false }

/-- One host progress callback, as delivered by the progress observer (a
no-op once the observer is unregistered).  Mirrors `onLoadStarted`,
`onTransferStarted`, `onContentLoaded` and `onLoadFinished` in `Tab.load`:
`contentLoaded` clears the start window and, on success, emits `ready` and
arms the load-timeout window; `loadFinished` clears the pending window and
either fails with "Unable to open URL" or emits `load` and schedules the
quiescence timer. -/
def handleHost (o : TabOptions) (t : Nat) (s : HostSig) (st : TabState) :
    TabState × List (Nat × QItem) :=
  if st.progReg then
    match s with
    | .loadStarted => ({ st with events := st.events ++ [.loadStart] }, [])
    | .transferStarted => ({ st with events := st.events ++ [.start] }, [])
    | .contentLoaded status =>
      if status then
        ({ st with phaseTimer := some st.nextId, nextId := st.nextId + 1,
                   events := st.events ++ [.ready] },
         [(t + o.loadTimeout, .timer st.nextId "Load timeout")])
      else ({ st with phaseTimer := none }, [])
    | .loadFinished status =>
      if status then
        ({ st with phaseTimer := none, events := st.events ++ [.load] },
         [(t + o.loadWait, .timerFull)])
      else
        (cleanUp { st with events := st.events ++ [.loadFail "Unable to open URL"] }, [])
  else (st, [])

/-- A phase timer fires only while it is still the armed `this._timeout`;
it emits its `loadFail` reason, which triggers `_cleanUp`. -/
def handleTimer (id : Nat) (reason : String) (st : TabState) : TabState :=
  if st.phaseTimer = some id then
    cleanUp { st with events := st.events ++ [.loadFail reason] }
  else st

/-- The anonymous quiescence timer is never cancelled; it emits `fullLoad`,
which triggers `_cleanUp`. -/
def handleFull (st : TabState) : TabState :=
  cleanUp { st with events := st.events ++ [.fullLoad] }

/-- Insert a pending item into the queue, keeping it sorted by firing time;
an item lands after the items already queued for the same time. -/
def insertQ (x : Nat × QItem) : List (Nat × QItem) → List (Nat × QItem)
  | [] => [x]
  | y :: ys => if y.1 ≤ x.1 then y :: insertQ x ys else x :: y :: ys

/-- Insert several newly armed items. -/
def insertAll (xs : List (Nat × QItem)) (q : List (Nat × QItem)) :
    List (Nat × QItem) :=
  xs.foldl (fun acc x => insertQ x acc) q

/-- Drive the event loop: pop the earliest pending item, run its handler,
queue whatever the handler armed, repeat.  Fuel bounds the recursion; the
top-level entry supplies enough for every item (each host signal can arm at
most one timer). -/
def run (o : TabOptions) : Nat → List (Nat × QItem) → TabState → TabState
  | 0, _, st => st
  | _ + 1, [], st => st
  | fuel + 1, (t, item) :: rest, st =>
    match item with
    | .host s =>
      let p := handleHost o t s st
      run o fuel (insertAll p.2 rest) p.1
    | .timer id reason => run o fuel rest (handleTimer id reason st)
    | .timerFull => run o fuel rest (handleFull st)

/-- The engine state right after `_load` ran at time 0: the start-timeout
timer (id 0) is armed, the progress observer is registered, and the only
event emitted so far is `init` — no host progress signal has been seen. -/
def initState : TabState :=
  { phaseTimer := some 0, nextId := 1, progReg := true, events := [.init] }

/-- One whole navigation attempt of `Tab.load`: starting from `initState`
with the start timer due at `startTimeout`, replay the given host signal
trace (list of time/signal pairs) to completion. -/
def loadRun (o : TabOptions) (trace : List (Nat × HostSig)) : TabState :=
  run o (2 * trace.length + 2)
    (insertQ (o.startTimeout, .timer 0 "Start timeout")
      (trace.map (fun p => (p.1, .host p.2))))
    initState

/-- The outcome `webPage.open` resolves from the attempt's event stream:
the first `fullLoad` resolves success (`some true`), the first `loadFail`
resolves fail (`some false`); `none` means the promise is still pending. -/
def loadOutcome (events : List TabEvent) : Option Bool :=
  events.findSome? (fun e =>
    match e with
    | .fullLoad => some true
    | .loadFail _ => some false
    | _ => none)

/-! ## The older engine variant's `ProgressListener` -/

/-- Gecko's `nsIWebProgressListener` state flag values consulted by the
listener. -/
def STATE_START : Nat := 1
def STATE_TRANSFERRING : Nat := 4
def STATE_STOP : Nat := 16
def STATE_IS_DOCUMENT : Nat := 131072
def STATE_IS_NETWORK : Nat := 262144
def STATE_IS_WINDOW : Nat := 524288

/-- `ProgressListener.isStart`: transfer has begun on the document. -/
def plIsStart (flags : Nat) : Bool :=
  flags &&& STATE_TRANSFERRING ≠ 0 && flags &&& STATE_IS_DOCUMENT ≠ 0

/-- `ProgressListener.isLoading`: window-level loading has started. -/
def plIsLoading (flags : Nat) : Bool :=
  flags &&& STATE_START ≠ 0 && flags &&& STATE_IS_WINDOW ≠ 0

/-- `ProgressListener.isLoaded`: network and window activity stopped. -/
def plIsLoaded (flags : Nat) : Bool :=
  flags &&& STATE_STOP ≠ 0 && flags &&& STATE_IS_NETWORK ≠ 0
    && flags &&& STATE_IS_WINDOW ≠ 0

/-- The recorded phases of the listener: 0 (initial), `START = 1`,
`INIT = 2` (the `loadStart` phase), `LOAD = 3`. -/
def PL_START : Nat := 1
def PL_INIT : Nat := 2

/-- The events the listener can emit from `onStateChange`. -/
inductive PLEvent
  | start
  | loadStart
  | failUnableToOpen
deriving Repr, DecidableEq

/-- `ProgressListener.onStateChange` of the older engine variant: advance to
`START` only when the current phase is strictly below it, advance to the
`loadStart` phase only from exactly `START` (and strictly below `INIT`),
and report "Unable to open URL" when the load stops before any transfer
began.  Returns the new recorded phase and the emitted event. -/
def plOnStateChange (state flags : Nat) : Nat × Option PLEvent :=
  if plIsStart flags && state < PL_START then
    (PL_START, some .start)
  else if plIsLoading flags && state == PL_START && state < PL_INIT then
    (PL_INIT, some .loadStart)
  else if plIsLoaded flags && state < PL_START then
    (state, some .failUnableToOpen)
  else
    (state, none)

/-! ## The page session layer (`webPage`) -/

/-- The slice of a `webPage` session state the close/open contracts touch:
whether a browser tab currently exists, the session state string
(`"closed"`, `"transfer"` or `"complete"`), the accumulated page text, and
the tab engine's timer/registration resources. -/
structure PageState where
  hasTab : Bool
  pstate : String
  plainText : String
  timerArmed : Bool
  registered : Bool
deriving Repr, DecidableEq

/-- What one `webPage.close()` call produced: the value the returned
promise resolves with (`none` would be a rejection — no path produces one),
whether the `closing` event fired, and whether any host tab state was
touched. -/
structure CloseResult where
  resolved : Option Bool
  emittedClosing : Bool
  hostTouched : Bool
deriving Repr, DecidableEq

/-- `webPage.close()` over the current `Tab` engine.  With a tab: the
engine's `_cleanUp` clears the pending timeout and unregisters the
observers, the host tab is removed, `TabClose` fires, the engine nulls its
tab and emits `close`, upon which the session emits `closing` and resolves
`true`; the session then resets its accumulated text and records state
`"closed"`.  Without a tab: the session emits `closing` and resolves
`false` without touching host state. -/
def webPage.closePage (p : PageState) : PageState × CloseResult :=
  if p.hasTab then
    ({ hasTab := false, pstate := "closed", plainText := "",
       timerArmed := false, registered := false },
     { resolved := some true, emittedClosing := true, hostTouched := true })
  else
    ({ p with pstate := "closed", plainText := "" },
     { resolved := some false, emittedClosing := true, hostTouched := false })

/-- `webPage.open(url)`'s entry guard: a call while the session state is
`"transfer"` (a previous open's outcome still unresolved) throws
"Transfer in progress"; otherwise the session resets its per-load data and
enters the `"transfer"` state. -/
def webPage.openPage (p : PageState) : Except String PageState :=
  if p.pstate = "transfer" then .error "Transfer in progress"
  else .ok { p with pstate := "transfer", plainText := "" }

/-! ## Theorems -/

/-- The event loop with an empty pending queue is finished. -/
theorem run_nil (o : TabOptions) (fuel : Nat) (st : TabState) :
    run o fuel [] st = st := by
  cases fuel <;> rfl

/-- Once the attempt is abandoned (observer unregistered, no phase timer
armed) the remaining host signals change nothing. -/
theorem run_inert (o : TabOptions) :
    ∀ (fuel : Nat) (q : List (Nat × QItem)) (st : TabState),
    st.progReg = false → st.phaseTimer = none →
    (∀ p ∈ q, ∃ s, p.2 = QItem.host s) →
    run o fuel q st = st := by
  intro fuel
  induction fuel with
  | zero => intro q st _ _ _; rfl
  | succ n ih =>
    intro q st hreg htimer hq
    match q with
    | [] => rfl
    | (t, item) :: rest =>
      obtain ⟨s, hs⟩ := hq (t, item) (List.mem_cons_self _ _)
      simp only at hs
      subst hs
      simp only [run, handleHost, hreg, Bool.false_eq_true, if_false, insertAll,
        List.foldl_nil]
      exact ih rest st hreg htimer (fun p hp => hq p (List.mem_cons_of_mem _ hp))

/-- The central run of one `load` attempt whose host trace shows no Start
(and no later signal) inside the start-timeout window: every pre-deadline
signal is a bare `loadStarted`, so nothing clears the start timer, the
timer fires `loadFail "Start timeout"`, `_cleanUp` abandons the attempt,
and everything after the deadline is ignored. -/
theorem run_start_timeout_aux (o : TabOptions) :
    ∀ (trace : List (Nat × HostSig)) (fuel : Nat) (st : TabState),
    trace.length + 1 ≤ fuel →
    st.progReg = true → st.phaseTimer = some 0 →
    (∀ p ∈ trace, p.1 ≤ o.startTimeout → p.2 = HostSig.loadStarted) →
    run o fuel
      (insertQ (o.startTimeout, QItem.timer 0 "Start timeout")
        (trace.map (fun p => (p.1, QItem.host p.2)))) st =
    { phaseTimer := none, nextId := st.nextId, progReg := false,
      events := st.events
        ++ List.replicate
            (trace.takeWhile (fun p => p.1 ≤ o.startTimeout)).length
            TabEvent.loadStart
        ++ [TabEvent.loadFail "Start timeout"] } := by
  intro trace
  induction trace with
  | nil =>
    intro fuel st hfuel hreg htimer _
    match fuel, hfuel with
    | fuel + 1, _ =>
      simp only [List.map_nil, insertQ, List.takeWhile_nil, List.length_nil,
        List.replicate_zero, List.append_nil, run, handleTimer, htimer,
        if_true, cleanUp, run_nil]
  | cons hd rest ih =>
    intro fuel st hfuel hreg htimer hpre
    obtain ⟨t, s⟩ := hd
    by_cases ht : t ≤ o.startTimeout
    · have hs : s = HostSig.loadStarted :=
        hpre (t, s) (List.mem_cons_self _ _) ht
      subst hs
      match fuel, hfuel with
      | fuel + 1, hfuel =>
        have hins : insertQ (o.startTimeout, QItem.timer 0 "Start timeout")
            (((t, HostSig.loadStarted) :: rest).map
              (fun p => (p.1, QItem.host p.2)))
          = (t, QItem.host HostSig.loadStarted)
            :: insertQ (o.startTimeout, QItem.timer 0 "Start timeout")
                 (rest.map (fun p => (p.1, QItem.host p.2))) := by
          simp [insertQ, ht]
        rw [hins]
        simp only [run, handleHost, hreg, if_true, insertAll, List.foldl_nil]
        rw [ih fuel
          { phaseTimer := st.phaseTimer, nextId := st.nextId, progReg := true,
            events := st.events ++ [TabEvent.loadStart] }
          (by simpa using Nat.le_of_succ_le_succ hfuel) rfl htimer
          (fun p hp => hpre p (List.mem_cons_of_mem _ hp))]
        have htw : ((t, HostSig.loadStarted) :: rest).takeWhile
            (fun p => p.1 ≤ o.startTimeout)
          = (t, HostSig.loadStarted)
            :: rest.takeWhile (fun p => p.1 ≤ o.startTimeout) := by
          simp [List.takeWhile_cons, ht]
        rw [htw]
        simp [List.replicate_succ, List.append_assoc]
    · match fuel, hfuel with
      | fuel + 1, hfuel =>
        have hins : insertQ (o.startTimeout, QItem.timer 0 "Start timeout")
            (((t, s) :: rest).map (fun p => (p.1, QItem.host p.2)))
          = (o.startTimeout, QItem.timer 0 "Start timeout")
            :: ((t, s) :: rest).map (fun p => (p.1, QItem.host p.2)) := by
          simp [insertQ, ht]
        rw [hins]
        simp only [run, handleTimer, htimer, if_true, cleanUp]
        rw [run_inert o fuel _ _ rfl rfl
          (by
            intro p hp
            simp only [List.mem_map] at hp
            obtain ⟨q, _, hq⟩ := hp
            exact ⟨q.2, by rw [← hq]⟩)]
        have htw : ((t, s) :: rest).takeWhile (fun p => p.1 ≤ o.startTimeout)
            = [] := by
          simp [List.takeWhile_cons, ht]
        rw [htw]
        simp

/-- One whole `load` attempt under the conditions of the previous lemma:
the final engine state in closed form. -/
theorem loadRun_start_timeout (o : TabOptions) (trace : List (Nat × HostSig))
    (hpre : ∀ p ∈ trace, p.1 ≤ o.startTimeout → p.2 = HostSig.loadStarted) :
    loadRun o trace =
      { phaseTimer := none, nextId := 1, progReg := false,
        events := TabEvent.init ::
          (List.replicate
            (trace.takeWhile (fun p => p.1 ≤ o.startTimeout)).length
            TabEvent.loadStart ++ [TabEvent.loadFail "Start timeout"]) } := by
  unfold loadRun
  rw [run_start_timeout_aux o trace (2 * trace.length + 2) initState
    (by omega) rfl rfl hpre]
  simp [initState]

/-- An event stream of `init`, then `loadStart` repetitions, then a
`loadFail`, resolves the open outcome as fail. -/
theorem loadOutcome_loadStart_fail (k : Nat) (r : String) :
    loadOutcome (TabEvent.init ::
      (List.replicate k TabEvent.loadStart ++ [TabEvent.loadFail r]))
      = some false := by
  induction k with
  | zero => rfl
  | succ n ih =>
    simpa [List.replicate_succ, loadOutcome] using ih

/-- No `ready` event occurs in such a stream. -/
theorem ready_not_mem_loadStart_fail (k : Nat) (r : String) :
    TabEvent.ready ∉ (TabEvent.init ::
      (List.replicate k TabEvent.loadStart ++ [TabEvent.loadFail r])) := by
  simp [List.mem_replicate]

/-- Claim C1: the start-timeout window.  `Tab.load` arms the start timer at
the `Init` phase, before any host progress signal (`initState` records the
armed timer with only `init` emitted).  For every host trace, in time
order, in which no Start has arrived by the time `startTimeout` elapses
(formally: every signal inside the window is a bare `loadStarted` — in
particular no Start, and no completion that would already have settled the
attempt), the attempt emits `loadFail "Start timeout"` and is abandoned
(observer unregistered, timer cleared, no further event), the open outcome
resolves as fail, and the `ready` phase is never reached.  With
`startTimeout = 0` every trace whose signals arrive after the synchronous
turn (times at least 1) satisfies this vacuously, so the load resolves fail
without ever reaching Ready, whatever the url's host later does. -/
theorem claim_C1_start_timeout (o : TabOptions) (trace : List (Nat × HostSig))
    (_hsorted : List.Pairwise (fun a b => a.1 ≤ b.1) trace)
    (hpre : ∀ p ∈ trace, p.1 ≤ o.startTimeout → p.2 = HostSig.loadStarted) :
    initState.phaseTimer = some 0 ∧
    initState.events = [TabEvent.init] ∧
    (∃ k, (loadRun o trace).events = TabEvent.init ::
      (List.replicate k TabEvent.loadStart
        ++ [TabEvent.loadFail "Start timeout"])) ∧
    (loadRun o trace).progReg = false ∧
    (loadRun o trace).phaseTimer = none ∧
    loadOutcome (loadRun o trace).events = some false ∧
    TabEvent.ready ∉ (loadRun o trace).events := by
  have hrun := loadRun_start_timeout o trace hpre
  refine ⟨rfl, rfl, ⟨_, by rw [hrun]⟩, by rw [hrun], by rw [hrun], ?_, ?_⟩
  · rw [hrun]
    exact loadOutcome_loadStart_fail _ _
  · rw [hrun]
    exact ready_not_mem_loadStart_fail _ _

/-- Concrete instance of claim C1: a tab configured with `startTimeout = 0`
and a host trace that would have loaded the page perfectly well (transfer
at time 1, content loaded at time 2, load finished at time 3) still
resolves fail and never emits `ready`. -/
theorem claim_C1_start_timeout_witness :
    (∀ p ∈ ([(1, HostSig.transferStarted), (2, HostSig.contentLoaded true),
             (3, HostSig.loadFinished true)] : List (Nat × HostSig)),
       p.1 ≤ (0 : Nat) → p.2 = HostSig.loadStarted) ∧
    loadOutcome (loadRun { startTimeout := 0, loadTimeout := 30000,
                           loadWait := 500 }
      [(1, HostSig.transferStarted), (2, HostSig.contentLoaded true),
       (3, HostSig.loadFinished true)]).events = some false ∧
    TabEvent.ready ∉ (loadRun { startTimeout := 0, loadTimeout := 30000,
                                loadWait := 500 }
      [(1, HostSig.transferStarted), (2, HostSig.contentLoaded true),
       (3, HostSig.loadFinished true)]).events :=
  ⟨by decide,
   (claim_C1_start_timeout
      { startTimeout := 0, loadTimeout := 30000, loadWait := 500 }
      [(1, HostSig.transferStarted), (2, HostSig.contentLoaded true),
       (3, HostSig.loadFinished true)] (by decide) (by decide)).2.2.2.2.2.1,
   (claim_C1_start_timeout
      { startTimeout := 0, loadTimeout := 30000, loadWait := 500 }
      [(1, HostSig.transferStarted), (2, HostSig.contentLoaded true),
       (3, HostSig.loadFinished true)] (by decide) (by decide)).2.2.2.2.2.2⟩

/-- Claim C2: within one navigation attempt the phase order
Start -> LoadStart -> Loaded is monotonic.  Every transition of
`ProgressListener.onStateChange` is guarded by a check that the recorded
phase is strictly below the target, so the recorded phase never decreases,
and it changes only 0 -> START (emitting `start`, guarded by
`state < START`) or START -> INIT (emitting `loadStart`, guarded by
`state == START` and `state < INIT`); an out-of-order signal — a duplicate
Start, or a LoadStart before Start — leaves the phase unchanged, whatever
order the host signals fire in. -/
theorem claim_C2_phase_transitions_monotonic (state flags : Nat) :
    state ≤ (plOnStateChange state flags).1 ∧
    ((plOnStateChange state flags).1 = state ∨
      (state = 0 ∧ (plOnStateChange state flags).1 = PL_START ∧
        plIsStart flags = true ∧ (plOnStateChange state flags).2 = some PLEvent.start) ∨
      (state = PL_START ∧ (plOnStateChange state flags).1 = PL_INIT ∧
        plIsLoading flags = true ∧ (plOnStateChange state flags).2 = some PLEvent.loadStart)) ∧
    (PL_START ≤ state → plIsStart flags = true → plIsLoading flags = false →
      (plOnStateChange state flags).1 = state) ∧
    (state = 0 → plIsLoading flags = true → plIsStart flags = false →
      (plOnStateChange state flags).1 = state) := by
  unfold plOnStateChange PL_START PL_INIT
  refine ⟨?_, ?_, ?_, ?_⟩ <;>
    intros <;> repeat' split
  all_goals (try simp_all)

/-- Claim C3: `close()` always succeeds and is idempotent.  For every
session state it resolves the returned outcome (never a rejection) and
emits the closing event; when no tab exists it does not touch host state;
and a second `close()` right after the first also resolves without error
(and without touching host state, the first close having dropped the
tab). -/
theorem claim_C3_close_idempotent (p : PageState) :
    (webPage.closePage p).2.resolved.isSome = true ∧
    (webPage.closePage p).2.emittedClosing = true ∧
    (p.hasTab = false → (webPage.closePage p).2.hostTouched = false) ∧
    (webPage.closePage (webPage.closePage p).1).2.resolved.isSome = true ∧
    (webPage.closePage (webPage.closePage p).1).2.hostTouched = false := by
  unfold webPage.closePage
  by_cases h : p.hasTab <;> simp [h]

/-- Concrete instance of claim C3 at a never-opened session: close resolves
and touches no host state. -/
theorem claim_C3_close_idempotent_witness :
    (webPage.closePage { hasTab := false, pstate := "closed", plainText := "",
                         timerArmed := false, registered := false }).2.resolved.isSome = true ∧
    (webPage.closePage { hasTab := false, pstate := "closed", plainText := "",
                         timerArmed := false, registered := false }).2.hostTouched = false :=
  ⟨(claim_C3_close_idempotent _).1, (claim_C3_close_idempotent _).2.2.1 rfl⟩

/-- Claim C4: at most one load in flight per session.  `open(url)` while
the session state is `"transfer"` fails fast by raising
"Transfer in progress"; in every other state it proceeds into the
`"transfer"` state — the implementation always follows the fail-fast
policy, never the supersede policy. -/
theorem claim_C4_transfer_in_progress (p : PageState) :
    (p.pstate = "transfer" → webPage.openPage p = .error "Transfer in progress") ∧
    (p.pstate ≠ "transfer" →
      webPage.openPage p = .ok { p with pstate := "transfer", plainText := "" }) := by
  unfold webPage.openPage
  constructor <;> intro h <;> simp [h]

/-- Concrete instance of claim C4: a session in `"transfer"` fails fast, a
completed session opens again. -/
theorem claim_C4_transfer_in_progress_witness :
    webPage.openPage { hasTab := true, pstate := "transfer", plainText := "",
                       timerArmed := false, registered := true } = .error "Transfer in progress" ∧
    webPage.openPage { hasTab := true, pstate := "complete", plainText := "x",
                       timerArmed := false, registered := false } =
      .ok { hasTab := true, pstate := "transfer", plainText := "",
            timerArmed := false, registered := false } :=
  ⟨(claim_C4_transfer_in_progress _).1 rfl, (claim_C4_transfer_in_progress _).2 (by simp)⟩

/-- Claim C5: authorization scoping.  With both userName and password set,
the main-document request (no referring origin) carries
`Authorization: Basic base64(user:pass)`; a sub-resource request (one with
a referring origin) whose scheme, host or port differs from the session's
base URL carries no Authorization header; and when either credential is
absent no request carries one. -/
theorem claim_C5_authorization_scoping (req : AuthRequest) (base : Origin)
    (u p : String) :
    (req.hasReferrer = false →
      setAuthHeaders req base (some u) (some p) =
        some (String.mk ("Basic ".data
          ++ base64Encode (strBytes u ++ [':'.toNat] ++ strBytes p)))) ∧
    (req.hasReferrer = true →
      (req.url.scheme ≠ base.scheme ∨ req.url.host ≠ base.host ∨
        req.url.port ≠ base.port) →
      setAuthHeaders req base (some u) (some p) = none) ∧
    (∀ user pass : Option String, user = none ∨ pass = none →
      setAuthHeaders req base user pass = none) := by
  refine ⟨?_, ?_, ?_⟩
  · intro h
    simp [setAuthHeaders, h, basicAuth]
  · intro h hdiff
    have : (req.url.scheme == base.scheme && req.url.host == base.host
        && req.url.port == base.port) = false := by
      rcases hdiff with hd | hd | hd <;> simp [hd]
    simp [setAuthHeaders, h, this]
  · intro user pass h
    rcases h with h | h
    · subst h; cases pass <;> rfl
    · subst h; cases user <;> rfl

/-- Concrete instance of claim C5, with the test suite's credentials
foo/bar: the main-document request gets the literal header value
"Basic Zm9vOmJhcg==", a cross-origin sub-resource request gets none, and a
credential-less session attaches nothing. -/
theorem claim_C5_authorization_scoping_witness :
    setAuthHeaders { url := { scheme := "http", host := "localhost", port := 8099 },
                     hasReferrer := false }
        { scheme := "http", host := "localhost", port := 8099 }
        (some "foo") (some "bar") = some "Basic Zm9vOmJhcg==" ∧
    setAuthHeaders { url := { scheme := "http", host := "evil.example", port := 80 },
                     hasReferrer := true }
        { scheme := "http", host := "localhost", port := 8099 }
        (some "foo") (some "bar") = none ∧
    setAuthHeaders { url := { scheme := "http", host := "localhost", port := 8099 },
                     hasReferrer := false }
        { scheme := "http", host := "localhost", port := 8099 }
        none none = none := by
  refine ⟨?_, ?_, ?_⟩
  · rw [(claim_C5_authorization_scoping _ _ "foo" "bar").1 rfl]
    rfl
  · exact (claim_C5_authorization_scoping _ _ "foo" "bar").2.1 rfl
      (Or.inr (Or.inl (by decide)))
  · exact (claim_C5_authorization_scoping
      { url := { scheme := "http", host := "localhost", port := 8099 },
        hasReferrer := false }
      { scheme := "http", host := "localhost", port := 8099 } "x" "y").2.2
      none none (Or.inl rfl)

/-- Claim C7: cookie names are unique within a jar.  Adding `C` then `C2`
with the same name leaves exactly one cookie under that name, and it is
`C2` (so its value is `C2.value`); adding a cookie whose name matches no
jar entry grows the jar by exactly one. -/
theorem claim_C7_jar_name_unique (J : List Cookie) (C C2 : Cookie)
    (h : C2.name = C.name) :
    (addCookie (addCookie J C) C2).filter (fun v => v.name = C.name) = [C2] ∧
    (∀ c : Cookie, (∀ v ∈ J, v.name ≠ c.name) →
      (addCookie J c).length = J.length + 1) := by
  constructor
  · have hfilter :
        (List.filter (fun v => decide (v.name ≠ C2.name))
          (List.filter (fun v => decide (v.name ≠ C.name)) J)) =
        List.filter (fun v => decide (v.name ≠ C.name)) J := by
      rw [List.filter_eq_self]
      intro a ha
      have := List.of_mem_filter ha
      simpa [h] using this
    simp only [addCookie, List.filter_append, hfilter]
    have h1 : (List.filter (fun v => decide (v.name ≠ C2.name)) [C]) = [] := by
      simp [List.filter, h]
    rw [h1]
    have h2 : (List.filter (fun v => decide (v.name = C.name))
        (List.filter (fun v => decide (v.name ≠ C.name)) J)) = [] := by
      rw [List.filter_eq_nil_iff]
      intro a ha
      have := List.of_mem_filter ha
      simp at this ⊢
      exact this
    rw [h2]
    simp [h]
  · intro c hc
    have hfil : (List.filter (fun v => decide (v.name ≠ c.name)) J) = J :=
      List.filter_eq_self.mpr (fun a ha => by simpa using hc a ha)
    simp only [addCookie, hfil, List.length_append, List.length_cons,
      List.length_nil]

/-- Concrete instance of claim C7, mirroring the repository's cookie test:
re-adding name "woot" with value "foo2" leaves one "woot" cookie holding
"foo2", and adding the fresh name "test" grows the jar by one. -/
theorem claim_C7_jar_name_unique_witness :
    (addCookie (addCookie []
        { name := "woot", value := "foo", domain := ".example.net", path := "/",
          secure := false, httponly := true, expires := none })
        { name := "woot", value := "foo2", domain := ".example.net", path := "/",
          secure := false, httponly := true, expires := none }).filter
      (fun v => v.name = "woot") =
      [{ name := "woot", value := "foo2", domain := ".example.net", path := "/",
         secure := false, httponly := true, expires := none }] :=
  (claim_C7_jar_name_unique []
    { name := "woot", value := "foo", domain := ".example.net", path := "/",
      secure := false, httponly := true, expires := none }
    { name := "woot", value := "foo2", domain := ".example.net", path := "/",
      secure := false, httponly := true, expires := none } rfl).1

/-- Counterexample to claim C9 as stated: the field set
`{name: "foo", value: "bar"}` contains both a name and a value, yet cookie
construction rejects it with `InvalidCookie` (the repository's own tests
assert this very call throws), so construction does not succeed for every
field set containing name and value. -/
theorem claim_C9_counterexample :
    ({ name := some "foo", value := some "bar" } : CookieFields).name.isSome = true ∧
    ({ name := some "foo", value := some "bar" } : CookieFields).value.isSome = true ∧
    Cookie.create { name := some "foo", value := some "bar" } =
      .error "InvalidCookie" :=
  ⟨rfl, rfl, rfl⟩

/-- Claim C9 (amended): cookie construction fails with `InvalidCookie`
exactly when name, value or domain is missing from the given fields; when
all three are supplied it succeeds and applies the defaults `path="/"`,
`httponly=true`, `secure=false` and no expiry to the fields not
supplied. -/
theorem claim_C9_create_requirements (f : CookieFields) :
    (Cookie.create f = .error "InvalidCookie" ↔
      (f.name = none ∨ f.value = none ∨ f.domain = none)) ∧
    (∀ n v d, f.name = some n → f.value = some v → f.domain = some d →
      Cookie.create f = .ok { name := n, value := v, domain := d,
                              path := f.path.getD "/",
                              secure := f.secure.getD false,
                              httponly := f.httponly.getD true,
                              expires := f.expires }) := by
  constructor
  · cases hn : f.name <;> cases hv : f.value <;> cases hd : f.domain <;>
      simp [Cookie.create, hn, hv, hd]
  · intro n v d hn hv hd
    simp [Cookie.create, hn, hv, hd]

/-- Concrete instance of claim C9 (amended), mirroring the repository's
"test simple": a cookie built from name/value/domain only gets path "/",
httponly true, secure false and no expiry. -/
theorem claim_C9_create_requirements_witness :
    Cookie.create { name := some "test", value := some "1",
                    domain := some "example.com" } =
      .ok { name := "test", value := "1", domain := "example.com", path := "/",
            secure := false, httponly := true, expires := none } :=
  (claim_C9_create_requirements _).2 "test" "1" "example.com" rfl rfl rfl

/-- When some field set in the assigned list is invalid, validating the
list fails, whatever jar has been accumulated so far. -/
theorem addAllCookies_error (values : List CookieFields)
    (h : ∃ f ∈ values, Cookie.create f = .error "InvalidCookie") :
    ∀ acc : List Cookie, ∃ e, addAllCookies acc values = .error e := by
  induction values with
  | nil => simp at h
  | cons f rest ih =>
    intro acc
    unfold addAllCookies
    cases hc : Cookie.create f with
    | error e => exact ⟨e, rfl⟩
    | ok c =>
      rcases h with ⟨g, hg, hge⟩
      rcases List.mem_cons.mp hg with rfl | hgrest
      · rw [hc] at hge; exact absurd hge (by simp)
      · exact ih ⟨g, hgrest, hge⟩ (addCookie acc c)

/-- When every field set validates, `addAllCookies` is the fold of
`addCookie` over the validated cookies. -/
theorem addAllCookies_ok (values : List CookieFields) :
    ∀ (acc cs : List Cookie), createAll values = .ok cs →
    addAllCookies acc values = .ok (cs.foldl addCookie acc) := by
  induction values with
  | nil =>
    intro acc cs h
    simp [createAll] at h
    subst h
    rfl
  | cons f rest ih =>
    intro acc cs h
    unfold createAll at h
    unfold addAllCookies
    cases hc : Cookie.create f with
    | error e => rw [hc] at h; simp at h
    | ok c =>
      rw [hc] at h
      cases hr : createAll rest with
      | error e => rw [hr] at h; simp at h
      | ok cs2 =>
        rw [hr] at h
        simp at h
        subst h
        show addAllCookies (addCookie acc c) rest =
          Except.ok (List.foldl addCookie acc (c :: cs2))
        rw [List.foldl_cons]
        exact ih (addCookie acc c) cs2 hr

/-- Folding `addCookie` over cookies whose names are fresh for the
accumulator and pairwise distinct just appends them. -/
theorem foldl_addCookie_fresh (cs : List Cookie) :
    ∀ acc : List Cookie,
    (∀ a ∈ acc, ∀ b ∈ cs, a.name ≠ b.name) →
    List.Pairwise (fun a b => a.name ≠ b.name) cs →
    cs.foldl addCookie acc = acc ++ cs := by
  induction cs with
  | nil => intro acc _ _; simp
  | cons c rest ih =>
    intro acc hdisj hpw
    rw [List.foldl_cons]
    have hacc : addCookie acc c = acc ++ [c] := by
      unfold addCookie
      rw [List.filter_eq_self.mpr]
      intro a ha
      simpa using hdisj a ha c (List.mem_cons_self c rest)
    rw [hacc, ih (acc ++ [c])]
    · simp
    · intro a ha b hb
      rcases List.mem_append.mp ha with ha | ha
      · exact hdisj a ha b (List.mem_cons_of_mem c hb)
      · have hb2 : a = c := by simpa using ha
        subst hb2
        exact (List.pairwise_cons.mp hpw).1 b hb
    · exact (List.pairwise_cons.mp hpw).2

/-- Claim C10: assigning to the `cookies` property is atomic in the jar
state.  If any element of the assigned list is an invalid cookie, the
assignment raises and the jar afterwards equals its contents from before;
if every element validates (and the assigned names are pairwise distinct),
the jar afterwards is exactly the assigned cookies, in order, with no
error raised. -/
theorem claim_C10_cookie_assignment_atomic (old : List Cookie)
    (values : List CookieFields) :
    ((∃ f ∈ values, Cookie.create f = .error "InvalidCookie") →
      setCookiesAssign old values = (old, true)) ∧
    (∀ cs : List Cookie, createAll values = .ok cs →
      List.Pairwise (fun a b => a.name ≠ b.name) cs →
      setCookiesAssign old values = (cs, false)) := by
  constructor
  · intro h
    obtain ⟨e, he⟩ := addAllCookies_error values h []
    unfold setCookiesAssign
    rw [he]
  · intro cs hcs hpw
    unfold setCookiesAssign
    rw [addAllCookies_ok values [] cs hcs,
      foldl_addCookie_fresh cs [] (by simp) hpw]
    simp

/-- Concrete instance of claim C10, mirroring the repository's cookie
test: assigning `[{name:"test"}]` (invalid: no value, no domain) over a
one-cookie jar raises and leaves the jar unchanged, while assigning one
valid field set installs exactly that cookie. -/
theorem claim_C10_cookie_assignment_atomic_witness :
    setCookiesAssign
      [{ name := "foo", value := "bar", domain := ".example.com", path := "/",
         secure := false, httponly := true, expires := none }]
      [{ name := some "test" }] =
      ([{ name := "foo", value := "bar", domain := ".example.com", path := "/",
          secure := false, httponly := true, expires := none }], true) ∧
    setCookiesAssign [] [{ name := some "test", value := some "cookieTest",
                           domain := some "localhost" }] =
      ([{ name := "test", value := "cookieTest", domain := "localhost",
          path := "/", secure := false, httponly := true,
          expires := none }], false) :=
  ⟨(claim_C10_cookie_assignment_atomic _ _).1
      ⟨{ name := some "test" }, by simp, rfl⟩,
   (claim_C10_cookie_assignment_atomic _ _).2 _ rfl
      (List.pairwise_singleton _ _)⟩

/-- Claim C8: `check(url)` (the cookie `matches` predicate) holds exactly
when the url's host satisfies the leading-dot domain rule (a dotted domain
matches the bare host and every subdomain, a bare domain only the exact
host), the url's path starts with the cookie's path, and, when the cookie
is secure, the url's scheme is https. -/
theorem claim_C8_cookie_matches (c : Cookie) (url : String) (u : URLParts)
    (hu : parseURL url = some u) :
    Cookie.check c url = true ↔
      ((if strStarts c.domain "." = true then
          u.host = strDropHead c.domain ∨ strEnds u.host c.domain = true
        else u.host = c.domain) ∧
       strStarts u.path c.path = true ∧
       (c.secure = true → u.scheme = "https")) := by
  unfold Cookie.check domainMatch
  rw [hu]
  cases hs : c.secure <;> by_cases hd : strStarts c.domain "." = true <;>
    simp [hd, hs, and_assoc]

/-- Concrete instance of claim C8, mirroring the repository's domain and
path tests: `.example.com` matches a subdomain, a secure cookie requires
https, and the dotted-domain cookie rejects `www.testexample.com`. -/
theorem claim_C8_cookie_matches_witness :
    Cookie.check { name := "test", value := "1", domain := ".example.com",
                   path := "/", secure := false, httponly := true,
                   expires := none } "http://www.example.com/" = true ∧
    Cookie.check { name := "W", value := "1", domain := "www.example.org",
                   path := "/test/", secure := true, httponly := true,
                   expires := none } "https://www.example.org/test/foo" = true ∧
    Cookie.check { name := "test", value := "1", domain := ".example.com",
                   path := "/", secure := false, httponly := true,
                   expires := none } "http://www.testexample.com/" = false := by
  refine ⟨?_, ?_, ?_⟩
  · exact (claim_C8_cookie_matches
      { name := "test", value := "1", domain := ".example.com", path := "/",
        secure := false, httponly := true, expires := none }
      "http://www.example.com/"
      { scheme := "http", host := "www.example.com", port := none, path := "/" }
      (by decide)).mpr (by decide)
  · exact (claim_C8_cookie_matches
      { name := "W", value := "1", domain := "www.example.org", path := "/test/",
        secure := true, httponly := true, expires := none }
      "https://www.example.org/test/foo"
      { scheme := "https", host := "www.example.org", port := none,
        path := "/test/foo" } (by decide)).mpr (by decide)
  · decide

/-- Claim C6: the secure-downgrade rule of `parseCookie`.  For a Set-Cookie
header value carrying the `secure` attribute, parsing against an https
response URL yields a secure cookie, while parsing the identical text
against a non-https response URL yields `secure = false`. -/
theorem claim_C6_secure_downgrade (h url : String) (u : URLParts) (c : Cookie)
    (hu : parseURL url = some u) (hp : parseCookie h url = some c)
    (hs : hasSecureAttr h = true) :
    (u.scheme = "https" → c.secure = true) ∧
    (u.scheme ≠ "https" → c.secure = false) := by
  unfold parseCookie at hp
  unfold hasSecureAttr at hs
  rcases hsp : splitFirstEq (trimChars ((splitOnChar ';' h.data).headD []))
    with _ | ⟨n, v⟩ <;> simp only [hu, hsp] at hp
  · exact absurd hp (by simp)
  · by_cases hne : n.isEmpty = true
    · rw [if_pos hne] at hp
      exact absurd hp (by simp)
    · rw [if_neg hne] at hp
      have hc := Option.some.inj hp
      subst hc
      constructor
      · intro hsch
        show (hasFlagAttr ((splitOnChar ';' h.data).drop 1) "secure".data
          && (u.scheme == "https")) = true
        rw [hs, hsch]
        simp
      · intro hsch
        show (hasFlagAttr ((splitOnChar ';' h.data).drop 1) "secure".data
          && (u.scheme == "https")) = false
        rw [hs]
        simp only [Bool.true_and, beq_eq_false_iff_ne]
        exact hsch

/-- Concrete instance of claim C6, with the repository's parser test
vector: `W=1; path=/test/; secure; HttpOnly` parses to a secure cookie
from an https response and to a non-secure cookie from an http one. -/
theorem claim_C6_secure_downgrade_witness :
    hasSecureAttr "W=1; path=/test/; secure; HttpOnly" = true ∧
    parseCookie "W=1; path=/test/; secure; HttpOnly" "https://www.example.org/" =
      some { name := "W", value := "1", domain := "www.example.org",
             path := "/test/", secure := true, httponly := true,
             expires := none } ∧
    parseCookie "W=1; path=/test/; secure; HttpOnly" "http://www.example.org/" =
      some { name := "W", value := "1", domain := "www.example.org",
             path := "/test/", secure := false, httponly := true,
             expires := none } ∧
    ({ name := "W", value := "1", domain := "www.example.org",
       path := "/test/", secure := true, httponly := true,
       expires := none } : Cookie).secure = true ∧
    ({ name := "W", value := "1", domain := "www.example.org",
       path := "/test/", secure := false, httponly := true,
       expires := none } : Cookie).secure = false := by
  refine ⟨by decide, by decide, by decide, ?_, ?_⟩
  · exact (claim_C6_secure_downgrade
      "W=1; path=/test/; secure; HttpOnly" "https://www.example.org/"
      { scheme := "https", host := "www.example.org", port := none, path := "/" }
      { name := "W", value := "1", domain := "www.example.org",
        path := "/test/", secure := true, httponly := true, expires := none }
      (by decide) (by decide) (by decide)).1 rfl
  · exact (claim_C6_secure_downgrade
      "W=1; path=/test/; secure; HttpOnly" "http://www.example.org/"
      { scheme := "http", host := "www.example.org", port := none, path := "/" }
      { name := "W", value := "1", domain := "www.example.org",
        path := "/test/", secure := false, httponly := true, expires := none }
      (by decide) (by decide) (by decide)).2 (by decide)

end JetpackWebpage
